import Mathlib

/-!
Verification of the matrix-workflow-builder orchestration core.

The definitions below are a shallow embedding of the engine package:
the payload record, the workflow step loop, the webhook trigger
registration and dispatch, the bot registry, and the bulk wake-up of
matrix bots.  External collaborators (the matrix SDK, the database,
the HTTP stack) appear only through the outcomes they return, passed
in as explicit parameters.
-/

set_option maxRecDepth 4000

/-- The payloadData record of the engine package: the mutable payload
threaded through a workflow run (message text and target room). -/
structure payloadData where
  Message : String
  Room : String
deriving DecidableEq, Repr

/-- A workflow step capability: run takes the current payload and
returns the next payload together with an optional error, mirroring
the Go signature run(payloadData, engine) (payloadData, error). -/
def StepFn : Type := payloadData → payloadData × Option String

/-- The workflow record of the engine package, polymorphic over the
step representation (the Go code stores a slice of the WorkflowStep
interface). -/
structure workflow (σ : Type) where
  id : Nat
  name : String
  description : String
  payload : payloadData
  steps : List σ

/-- addWorkflowStep appends a step at the end of the workflow. -/
def workflow.addWorkflowStep {σ : Type} (w : workflow σ) (s : σ) : workflow σ :=
  { w with steps := w.steps ++ [s] }

/-- The log line emitted by workflow.run when a step reports an error. -/
def stepErrorLog (wid : Nat) (err : String) : String :=
  "Workflow Step execution error: WorkflowID:" ++ toString wid ++ " Error:" ++ err

/-- The loop body of workflow.run: each step is run on the current
payload, the payload is overwritten with the value the step returned
(also when the step reported an error), and an error is logged but
does not halt the loop. -/
def runSteps (wid : Nat) : List StepFn → payloadData → List String → payloadData × List String
  | [], p, logs => (p, logs)
  | s :: rest, p, logs =>
    let r := s p
    runSteps wid rest r.1
      (logs ++ (match r.2 with
        | some err => [stepErrorLog wid err]
        | none => []))

/-- workflow.run: sets the workflow payload to the initial value and
folds it through every step in sequence order, collecting the log
lines the engine would emit. -/
def workflow.run (w : workflow StepFn) (payload : payloadData) : workflow StepFn × List String :=
  let r := runSteps w.id w.steps payload []
  ({ w with payload := r.1 }, r.2)

/-- The mockWorkflowStep of the engine test suite: a payload whose
message is "throwerr" makes the step fail, returning an empty-message
payload next to the error; otherwise the step appends its impact to
the message (dropping the room, which is zero-initialised in Go). -/
structure mockWorkflowStep where
  impact : String

/-- mockWorkflowStep.run, translated from mocks_test.go. -/
def mockWorkflowStep.run (m : mockWorkflowStep) (p : payloadData) : payloadData × Option String :=
  if p.Message = "throwerr" then ({ Message := "", Room := "" }, some "whatever")
  else ({ Message := p.Message ++ m.impact, Room := "" }, none)

/-- The reference fold the specification describes: payload `i+1` is
the payload component returned by step i on payload i. -/
def foldSteps (steps : List StepFn) (p : payloadData) : payloadData :=
  steps.foldl (fun q s => (s q).1) p

/-- The payload passed into step i (0-indexed) of a run that starts
from p0: the fold of p0 through the first i steps. -/
def payloadInto (steps : List StepFn) (p0 : payloadData) (i : Nat) : payloadData :=
  foldSteps (steps.take i) p0

/-- First-match association lookup, the observable behaviour of a Go
map whose writes prepend the freshest binding. -/
def lookupA {α β : Type} [DecidableEq α] (k : α) : List (α × β) → Option β
  | [] => none
  | kv :: rest => if kv.1 = k then some kv.2 else lookupA k rest

/-- The webhookt trigger record, with the fields part_002 reads
(name, urlSuffix, the engine back-reference set at registration) and
the workflow binding the spec describes. -/
structure webhookt where
  name : String
  urlSuffix : String
  workflowID : Nat
  engineRefSet : Bool
deriving DecidableEq, Repr

/-- engine.registerWebhookTrigger: stores the engine back-reference in
the trigger and writes the trigger into the webhook map under its
urlSuffix.  There is no occupancy check and no error return: an
existing registration under the same suffix is overwritten. -/
def registerWebhookTrigger (triggers : List (String × webhookt)) (t : webhookt) :
    List (String × webhookt) :=
  let t' := { t with engineRefSet := true }
  (t'.urlSuffix, t') :: triggers

/-- The model.Bot record as the bot registry reads it: username,
password and the primary flag queried through IsPrimary. -/
structure ModelBot where
  Username : String
  Password : String
  isPrimary : Bool
deriving DecidableEq, Repr

/-- The bot registry of app/bot/registry.go.  A matrix client session
is abstracted to an opaque token. -/
structure botRegistry where
  homeserverDomain : String
  primaryUsername : String
  clients : List (String × String)
deriving DecidableEq, Repr

/-- NewRegistry: fresh registry for a homeserver domain, empty client
map and zero-valued primary username. -/
def NewRegistry (homeserverDomain : String) : botRegistry :=
  { homeserverDomain := homeserverDomain, primaryUsername := "", clients := [] }

/-- registry.Append, translated statement by statement from
registry.go.  The outcomes of the external matrix.Client calls made
inside Append (Login and the OnRoomInvite wiring) are passed in as the
loginErr and onInviteErr parameters.  Note the order: the primary
username is recorded before the duplicate check runs. -/
def botRegistry.Append (r : botRegistry) (bot : ModelBot) (client : String)
    (loginErr : Option String) (onInviteErr : Option String) :
    botRegistry × Option String :=
  let r1 := if bot.isPrimary then { r with primaryUsername := bot.Username } else r
  if (lookupA bot.Username r1.clients).isSome then
    (r1, some ("bot " ++ bot.Username ++ " is already known"))
  else
    match loginErr with
    | some err => (r1, some err)
    | none =>
      match onInviteErr with
      | some err => (r1, some err)
      | none => ({ r1 with clients := (bot.Username, client) :: r1.clients }, none)

/-- Helper for the room-id domain: the character list after the first
colon, if any. -/
def afterColon : List Char → Option (List Char)
  | [] => none
  | c :: rest => if c = ':' then some rest else afterColon rest

/-- Modelled from the spec: room.ID.HomeserverDomain (package
model/room, not under src) returns the homeserver domain of a matrix
room id, the part of the id after the first colon (matrix room ids
have the shape local-part colon domain); an id without a colon has an
empty domain. -/
def roomHomeserverDomain (roomID : String) : String :=
  match afterColon roomID.toList with
  | some cs => String.mk cs
  | none => ""

/-- The outcome of the OnRoomInvite callback wired by registry.Append. -/
inductive InviteResult where
  | joined
  | joinFailed
  | ignoredForeign
deriving DecidableEq, Repr

/-- Whether the callback issued a JoinRoom call on the client. -/
def joinCallIssued : InviteResult → Bool
  | InviteResult.ignoredForeign => false
  | _ => true

/-- The OnRoomInvite callback closure that registry.Append installs on
every registered client, translated from registry.go: invitations to
rooms outside the registry homeserver domain are ignored with a log
line; otherwise the client joins the room, a failed join being logged
as well.  The outcome of the external JoinRoom call is the joinErr
parameter. -/
def onRoomInviteCallback (homeserverDomain : String) (joinErr : String → Option String)
    (roomID : String) : InviteResult × List String :=
  if roomHomeserverDomain roomID ≠ homeserverDomain then
    (InviteResult.ignoredForeign,
      ["Ignoring invitation to room in another homeserver: " ++ roomID])
  else
    match joinErr roomID with
    | some _ => (InviteResult.joinFailed, ["Failed to join room " ++ roomID])
    | none => (InviteResult.joined, [])

/-- The Bot record of the engine package as wakeUpMatrixBots uses it:
an id, and the outcome of the call b.WakeUp(e).  Modelled from the
spec: Bot.WakeUp (bot code not under src) performs login and invite
wiring and returns a client session or an error, the client being nil
exactly when wake-up failed; it is modelled here as the predetermined
wake-up outcome of the bot, some session token on success and none on
failure. -/
structure EngineBot where
  ID : Nat
  wakeUp : Option String
deriving DecidableEq, Repr

/-- The loop body of engine.wakeUpMatrixBots: for every bot, WakeUp is
called, a failure appends the bot id to the failed list, and the
returned client (nil on failure) is stored in the bot map under the
bot id unconditionally.  The concurrent tasks of the source are
serialised in list order. -/
def wakeUpLoop : List EngineBot → List (Nat × Option String) → List Nat →
    List (Nat × Option String) × List Nat
  | [], m, failed => (m, failed)
  | b :: rest, m, failed =>
    let c := b.wakeUp
    wakeUpLoop rest ((b.ID, c) :: m) (if c.isSome then failed else failed ++ [b.ID])

/-- engine.wakeUpMatrixBots over an explicit bot list: runs the
wake-up loop over every bot, then fails with the collected id list
exactly when it is non-empty. -/
def wakeUpMatrixBots (bots : List EngineBot) (m0 : List (Nat × Option String)) :
    List (Nat × Option String) × Option (List Nat) :=
  let r := wakeUpLoop bots m0 []
  (r.1, if r.2.isEmpty then none else some r.2)

/-- The two fields the JSON decoder of the webhook listener reads out
of a request body; an absent field leaves the Go struct field at its
zero value. -/
structure JsonPayload where
  message : Option String
  room : Option String
deriving DecidableEq, Repr

/-- An inbound HTTP request as the webhook listener sees it.  The
body is carried through the two external standard-library decoders:
bodyJson is the result of json.Decode into payloadData (none meaning
a decode error) and bodyForm the result of ParseForm (none meaning a
parse error); query and form values map a key to its list of values
as url.Values does. -/
structure Request where
  method : String
  path : String
  query : List (String × List String)
  contentTypes : List String
  bodyJson : Option JsonPayload
  bodyForm : Option (List (String × List String))

/-- url.Values.Get: the first value bound to the key, or the empty
string when the key is absent or has no values. -/
def formGet (form : List (String × List String)) (k : String) : String :=
  match lookupA k form with
  | some (v :: _) => v
  | _ => ""

/-- The fixed path prefix of the webhook listener. -/
def webhookListenerPath : String := "/webhooks-listener/"

/-- strings.HasPrefix over character lists. -/
def hasPrefixCL : List Char → List Char → Bool
  | [], _ => true
  | _ :: _, [] => false
  | a :: as, b :: bs => if a = b then hasPrefixCL as bs else false

/-- The suffix extraction of runWebhookListener: a path outside the
fixed listener prefix has no suffix (404); otherwise the prefix
(strings.TrimPrefix) and one trailing slash (strings.TrimSuffix) are
stripped. -/
def pathToSuffix (path : String) : Option String :=
  let pcs := path.toList
  let pre := webhookListenerPath.toList
  if hasPrefixCL pre pcs then
    let t := pcs.drop pre.length
    some (String.mk (if t.getLast? = some '/' then t.dropLast else t))
  else none

/-- What the webhook handler did with a request: wrote an HTTP error
response, invoked the workflow bound to the trigger at the suffix
with the built payload (then answered 200), or panicked (a nil index
or an unhandled decoder error). -/
inductive HandlerResult where
  | response (status : Nat) (msg : String)
  | processed (suffix : String) (p : payloadData)
  | panicked
deriving DecidableEq, Repr

/-- The method switch of the webhook handler, producing either an
early error response (or panic) or the extracted message and room.
Translated branch by branch from runWebhookListener in part_002. -/
def extractPayload (r : Request) : Except HandlerResult (String × String) :=
  match r.method with
  | "GET" =>
    match lookupA "message" r.query with
    | none => Except.error (HandlerResult.response 400
        "400 bad request (No message parameter provided)")
    | some messageSlice =>
      if messageSlice.length < 1 then
        Except.error (HandlerResult.response 400
          "400 bad request (No message parameter provided)")
      else
        let message := messageSlice.headD ""
        match lookupA "room" r.query with
        | some roomSlice =>
          if roomSlice.length = 1 ∧ roomSlice.headD "" = "" then
            Except.error (HandlerResult.response 400
              "400 bad request (No room value specified)")
          else
            match roomSlice with
            | [] => Except.error HandlerResult.panicked
            | rv :: _ => Except.ok (message, rv)
        | none => Except.ok (message, "")
  | "POST" =>
    match r.contentTypes with
    | [] => Except.error HandlerResult.panicked
    | ct :: _ =>
      if ct = "application/json" then
        match r.bodyJson with
        | none => Except.error HandlerResult.panicked
        | some jp => Except.ok (jp.message.getD "", jp.room.getD "")
      else if ct = "application/x-www-form-urlencoded" then
        match r.bodyForm with
        | none => Except.error HandlerResult.panicked
        | some form => Except.ok (formGet form "message", formGet form "room")
      else Except.ok ("", "")
  | _ => Except.ok ("", "")

/-- The request handler installed by runWebhookListener: 404 outside
the listener prefix and for an unregistered suffix; for a registered
suffix the method switch extracts message and room, an empty final
message is a 400, and otherwise the trigger at the suffix processes
the payload. -/
def handleWebhook (webhooks : List (String × webhookt)) (r : Request) : HandlerResult :=
  match pathToSuffix r.path with
  | none => HandlerResult.response 404 "404 not found."
  | some suffix =>
    match lookupA suffix webhooks with
    | none => HandlerResult.response 404 "404 not found."
    | some _ =>
      match extractPayload r with
      | Except.error res => res
      | Except.ok (message, room) =>
        if message = "" then
          HandlerResult.response 400 "400 bad request (No message to post)"
        else
          HandlerResult.processed suffix { Message := message, Room := room }

/-- The discriminated workflow-step variants that loadData handles:
the three concrete step types of the engine. -/
inductive WFStepKind where
  | postMessageMatrix
  | stdout
  | sendEmail
deriving DecidableEq, Repr

/-- A workflow-step record as returned by getConfiguredWFSteps: its
display name, the owning workflow id, and its variant. -/
structure WFStepRecord where
  name : String
  workflow_id : Nat
  kind : WFStepKind
deriving DecidableEq, Repr

/-- In-place update of the workflow stored under a key, the model of
mutating through the stored workflow pointer. -/
def updateEntry {α : Type} (m : List (Nat × α)) (k : Nat) (f : α → α) : List (Nat × α) :=
  m.map (fun kv => (kv.1, if kv.1 = k then f kv.2 else kv.2))

/-- The step-loading loop of engine.loadData: every step record is
dispatched on its concrete variant (the three cases run the same
code) and appended to the workflow stored in the workflow map under
its workflow_id.  A workflow_id absent from the map makes the Go map
lookup return a nil workflow pointer and addWorkflowStep dereference
it: the run panics, modelled by none. -/
def loadWorkflowSteps :
    List (Nat × workflow WFStepRecord) → List WFStepRecord →
    Option (List (Nat × workflow WFStepRecord))
  | m, [] => some m
  | m, ws :: rest =>
    match ws.kind with
    | WFStepKind.postMessageMatrix | WFStepKind.stdout | WFStepKind.sendEmail =>
      match lookupA ws.workflow_id m with
      | none => none
      | some _ =>
        loadWorkflowSteps (updateEntry m ws.workflow_id (fun w => w.addWorkflowStep ws)) rest

theorem foldSteps_cons (s : StepFn) (rest : List StepFn) (p : payloadData) :
    foldSteps (s :: rest) p = foldSteps rest (s p).1 := rfl

theorem runSteps_fst (wid : Nat) (steps : List StepFn) (p : payloadData) (logs : List String) :
    (runSteps wid steps p logs).1 = foldSteps steps p := by
  induction steps generalizing p logs with
  | nil => rfl
  | cons s rest ih =>
    rw [runSteps, foldSteps_cons]
    exact ih (s p).1 _

/-- C1: for every workflow with step sequence s1..sn and every initial
payload p0, workflow.run(p0) produces the same final payload as
folding p0 through the steps in sequence order, with
payload i+1 = (step i).run(payload i). -/
theorem c1_workflow_run_is_fold (w : workflow StepFn) (p0 : payloadData) :
    ((w.run p0).1).payload = foldSteps w.steps p0 := by
  show (runSteps w.id w.steps p0 []).1 = foldSteps w.steps p0
  exact runSteps_fst w.id w.steps p0 []

theorem payloadInto_zero (steps : List StepFn) (p0 : payloadData) :
    payloadInto steps p0 0 = p0 := rfl

theorem payloadInto_cons (s : StepFn) (rest : List StepFn) (p0 : payloadData) (i : Nat) :
    payloadInto (s :: rest) p0 (i + 1) = payloadInto rest (s p0).1 i := by
  simp [payloadInto, List.take_succ_cons, foldSteps_cons]

theorem payloadInto_succ (steps : List StepFn) (p0 : payloadData) (i : Nat)
    (h : i < steps.length) :
    payloadInto steps p0 (i + 1) = ((steps.get ⟨i, h⟩) (payloadInto steps p0 i)).1 := by
  induction steps generalizing p0 i with
  | nil => exact absurd h (Nat.not_lt_zero i)
  | cons s rest ih =>
    cases i with
    | zero => simp [payloadInto_cons, payloadInto_zero, payloadInto, foldSteps]
    | succ j =>
      have hj : j < rest.length := Nat.lt_of_succ_lt_succ h
      rw [payloadInto_cons, ih (s p0).1 j hj, payloadInto_cons]
      rfl

theorem payloadInto_length (steps : List StepFn) (p0 : payloadData) :
    payloadInto steps p0 steps.length = foldSteps steps p0 := by
  simp [payloadInto]

theorem runSteps_logs_mono (wid : Nat) (steps : List StepFn) (p : payloadData)
    (logs : List String) (x : String) (hx : x ∈ logs) :
    x ∈ (runSteps wid steps p logs).2 := by
  induction steps generalizing p logs with
  | nil => exact hx
  | cons s rest ih =>
    rw [runSteps]
    exact ih (s p).1 _ (List.mem_append_left _ hx)

theorem runSteps_logs_of_err (wid : Nat) (steps : List StepFn) (p0 : payloadData)
    (logs : List String) (i : Nat) (h : i < steps.length) (err : String)
    (hstep : ((steps.get ⟨i, h⟩) (payloadInto steps p0 i)).2 = some err) :
    stepErrorLog wid err ∈ (runSteps wid steps p0 logs).2 := by
  induction steps generalizing p0 i logs with
  | nil => exact absurd h (Nat.not_lt_zero i)
  | cons s rest ih =>
    cases i with
    | zero =>
      have hs : (s p0).2 = some err := by
        simpa [payloadInto_zero] using hstep
      rw [runSteps, hs]
      exact runSteps_logs_mono wid rest (s p0).1 _ _
        (List.mem_append_right _ (List.mem_singleton.mpr rfl))
    | succ j =>
      have hj : j < rest.length := Nat.lt_of_succ_lt_succ h
      have hstep' : ((rest.get ⟨j, hj⟩) (payloadInto rest (s p0).1 j)).2 = some err := by
        rw [← payloadInto_cons s rest p0 j]
        exact hstep
      rw [runSteps]
      exact ih (s p0).1 _ j hj hstep'

/-- C2 counterexample: a three-step workflow of mock steps, started on
message "throw".  Step 0 turns the message into "throwerr", step 1
fails on it and returns the empty-message payload next to its error;
the payload passed into step 2 is that returned empty payload, not
the pre-failure payload that entered step 1.  This refutes the claim
that after a step failure the next step receives the pre-failure
payload. -/
theorem c2_counterexample :
    ((mockWorkflowStep.mk "x").run (payloadInto
        [(mockWorkflowStep.mk "err").run, (mockWorkflowStep.mk "x").run,
          (mockWorkflowStep.mk "y").run] ⟨"throw", ""⟩ 1)).2.isSome = true ∧
    payloadInto
        [(mockWorkflowStep.mk "err").run, (mockWorkflowStep.mk "x").run,
          (mockWorkflowStep.mk "y").run] ⟨"throw", ""⟩ 2 ≠
      payloadInto
        [(mockWorkflowStep.mk "err").run, (mockWorkflowStep.mk "x").run,
          (mockWorkflowStep.mk "y").run] ⟨"throw", ""⟩ 1 := by
  refine ⟨?_, ?_⟩ <;> decide

/-- C2 amended: when step i of a workflow reports an error, the run
logs the failure and does not halt (every later step still executes
and the final payload is the full fold), but the payload passed into
step i+1 is the payload value that step i returned alongside its
error, not the payload that was passed into step i. -/
theorem c2_amended (wid : Nat) (steps : List StepFn) (p0 : payloadData) (i : Nat)
    (h : i < steps.length) (err : String)
    (herr : ((steps.get ⟨i, h⟩) (payloadInto steps p0 i)).2 = some err) :
    stepErrorLog wid err ∈ (runSteps wid steps p0 []).2 ∧
    payloadInto steps p0 (i + 1) = ((steps.get ⟨i, h⟩) (payloadInto steps p0 i)).1 ∧
    (runSteps wid steps p0 []).1 = payloadInto steps p0 steps.length := by
  refine ⟨runSteps_logs_of_err wid steps p0 [] i h err herr,
    payloadInto_succ steps p0 i h, ?_⟩
  rw [runSteps_fst, payloadInto_length]

/-- C2 amended witness: the counterexample workflow instantiates the
amended claim at step index 1. -/
theorem c2_amended_witness :
    stepErrorLog 7 "whatever" ∈ (runSteps 7
        [(mockWorkflowStep.mk "err").run, (mockWorkflowStep.mk "x").run,
          (mockWorkflowStep.mk "y").run] ⟨"throw", ""⟩ []).2 ∧
    payloadInto
        [(mockWorkflowStep.mk "err").run, (mockWorkflowStep.mk "x").run,
          (mockWorkflowStep.mk "y").run] ⟨"throw", ""⟩ 2 =
      (((mockWorkflowStep.mk "x").run) (payloadInto
        [(mockWorkflowStep.mk "err").run, (mockWorkflowStep.mk "x").run,
          (mockWorkflowStep.mk "y").run] ⟨"throw", ""⟩ 1)).1 ∧
    (runSteps 7
        [(mockWorkflowStep.mk "err").run, (mockWorkflowStep.mk "x").run,
          (mockWorkflowStep.mk "y").run] ⟨"throw", ""⟩ []).1 =
      payloadInto
        [(mockWorkflowStep.mk "err").run, (mockWorkflowStep.mk "x").run,
          (mockWorkflowStep.mk "y").run] ⟨"throw", ""⟩ 3 :=
  c2_amended 7
    [(mockWorkflowStep.mk "err").run, (mockWorkflowStep.mk "x").run,
      (mockWorkflowStep.mk "y").run] ⟨"throw", ""⟩ 1 (by decide) "whatever" (by decide)

theorem lookupA_cons_self {α β : Type} [DecidableEq α] (k : α) (v : β)
    (m : List (α × β)) : lookupA k ((k, v) :: m) = some v := by
  simp [lookupA]

theorem lookupA_cons_ne {α β : Type} [DecidableEq α] (k j : α) (v : β)
    (m : List (α × β)) (h : j ≠ k) : lookupA k ((j, v) :: m) = lookupA k m := by
  simp [lookupA, h]

/-- C5 counterexample: registering a second webhook trigger under the
already-registered suffix "s" does not fail (registerWebhookTrigger
has no failure outcome at all) and does not leave the first trigger in
place: the map afterwards resolves "s" to the second trigger. -/
theorem c5_counterexample :
    lookupA "s"
        (registerWebhookTrigger
          (registerWebhookTrigger [] ⟨"first", "s", 1, false⟩)
          ⟨"second", "s", 2, false⟩) =
      some ⟨"second", "s", 2, true⟩ ∧
    some (webhookt.mk "second" "s" 2 true) ≠ some (webhookt.mk "first" "s" 1 true) := by
  refine ⟨?_, ?_⟩ <;> decide

/-- C5 amended: registering a second webhook trigger with the same URL
suffix does not fail; the registration function has no failure mode
and the second trigger silently replaces the first in the webhook
map. -/
theorem c5_amended (triggers : List (String × webhookt)) (t1 t2 : webhookt)
    (h : t2.urlSuffix = t1.urlSuffix) :
    lookupA t1.urlSuffix
        (registerWebhookTrigger (registerWebhookTrigger triggers t1) t2) =
      some { t2 with engineRefSet := true } := by
  simp [registerWebhookTrigger, lookupA, h]

/-- C5 amended witness: the concrete duplicate registration of the
counterexample instantiates the amended claim. -/
theorem c5_amended_witness :
    lookupA "s"
        (registerWebhookTrigger
          (registerWebhookTrigger [] ⟨"first", "s", 1, false⟩)
          ⟨"second", "s", 2, false⟩) =
      some ⟨"second", "s", 2, true⟩ :=
  c5_amended [] ⟨"first", "s", 1, false⟩ ⟨"second", "s", 2, false⟩ rfl

/-- C6 counterexample: after a first successful Append of bot "alice"
(not primary), a second Append of the same identity marked primary
fails with the already-known error, yet it mutates the registry: the
recorded primary username changes from "" to "alice".  This refutes
the claim that the failed call causes no mutation of registry state at
all. -/
theorem c6_counterexample :
    ((((NewRegistry "example.org").Append ⟨"alice", "pw", false⟩ "c1" none none).1.Append
        ⟨"alice", "pw2", true⟩ "c2" none none).2).isSome = true ∧
    (((NewRegistry "example.org").Append ⟨"alice", "pw", false⟩ "c1" none none).1.Append
        ⟨"alice", "pw2", true⟩ "c2" none none).1.primaryUsername = "alice" ∧
    ((NewRegistry "example.org").Append ⟨"alice", "pw", false⟩ "c1" none none).1.primaryUsername
      = "" := by
  refine ⟨?_, ?_, ?_⟩ <;> decide

/-- C6 amended: a second Append of an identity already present in the
registry returns the already-known error and leaves the client map
(and so the first session) and the homeserver domain untouched; but
the recorded primary username is not protected: when the rejected bot
is marked primary the failed call overwrites it with the rejected
username. -/
theorem c6_amended (r : botRegistry) (bot : ModelBot) (client : String)
    (loginErr onInviteErr : Option String)
    (h : (lookupA bot.Username r.clients).isSome = true) :
    (r.Append bot client loginErr onInviteErr).2 =
      some ("bot " ++ bot.Username ++ " is already known") ∧
    (r.Append bot client loginErr onInviteErr).1.clients = r.clients ∧
    (r.Append bot client loginErr onInviteErr).1.homeserverDomain = r.homeserverDomain ∧
    (r.Append bot client loginErr onInviteErr).1.primaryUsername =
      (if bot.isPrimary then bot.Username else r.primaryUsername) := by
  unfold botRegistry.Append
  by_cases hp : bot.isPrimary <;> simp [hp, h]

/-- C6 amended witness: the duplicate primary-flagged Append of the
counterexample instantiates the amended claim. -/
theorem c6_amended_witness :
    ((((NewRegistry "example.org").Append ⟨"alice", "pw", false⟩ "c1" none none).1).Append
        ⟨"alice", "pw2", true⟩ "c2" none none).2 =
      some ("bot " ++ "alice" ++ " is already known") ∧
    ((((NewRegistry "example.org").Append ⟨"alice", "pw", false⟩ "c1" none none).1).Append
        ⟨"alice", "pw2", true⟩ "c2" none none).1.clients =
      (((NewRegistry "example.org").Append ⟨"alice", "pw", false⟩ "c1" none none).1).clients ∧
    ((((NewRegistry "example.org").Append ⟨"alice", "pw", false⟩ "c1" none none).1).Append
        ⟨"alice", "pw2", true⟩ "c2" none none).1.homeserverDomain =
      (((NewRegistry "example.org").Append ⟨"alice", "pw", false⟩ "c1" none none).1).homeserverDomain ∧
    ((((NewRegistry "example.org").Append ⟨"alice", "pw", false⟩ "c1" none none).1).Append
        ⟨"alice", "pw2", true⟩ "c2" none none).1.primaryUsername =
      (if (ModelBot.mk "alice" "pw2" true).isPrimary then "alice" else
        (((NewRegistry "example.org").Append ⟨"alice", "pw", false⟩ "c1" none none).1).primaryUsername) :=
  c6_amended (((NewRegistry "example.org").Append ⟨"alice", "pw", false⟩ "c1" none none).1)
    ⟨"alice", "pw2", true⟩ "c2" none none (by decide)

/-- C4: for every room invitation delivered to a registered bot, the
callback issues a join call if and only if the inviting room
homeserver domain equals the registry configured homeserver domain;
a foreign-domain invite never joins and is only logged (the callback
returns after the log line, non-fatally). -/
theorem c4_invite_join_iff_domain (domain : String) (joinErr : String → Option String)
    (roomID : String) :
    (joinCallIssued (onRoomInviteCallback domain joinErr roomID).1 = true ↔
      roomHomeserverDomain roomID = domain) ∧
    (roomHomeserverDomain roomID ≠ domain →
      (onRoomInviteCallback domain joinErr roomID).2 =
        ["Ignoring invitation to room in another homeserver: " ++ roomID]) := by
  constructor
  · by_cases h : roomHomeserverDomain roomID = domain
    · simp only [onRoomInviteCallback, h]
      cases hj : joinErr roomID <;> simp [joinCallIssued, h, hj]
    · simp [onRoomInviteCallback, h, joinCallIssued]
  · intro h
    simp [onRoomInviteCallback, h]

/-- C4 witness: with domain example.org, an invite to a room on
example.org issues a join and an invite to a room on other.org is
ignored with only the log line. -/
theorem c4_witness :
    joinCallIssued (onRoomInviteCallback "example.org" (fun _ => none) "!r:example.org").1
      = true ∧
    (onRoomInviteCallback "example.org" (fun _ => none) "!r:other.org").2 =
      ["Ignoring invitation to room in another homeserver: " ++ "!r:other.org"] :=
  ⟨(c4_invite_join_iff_domain "example.org" (fun _ => none) "!r:example.org").1.mpr
      (by decide),
    (c4_invite_join_iff_domain "example.org" (fun _ => none) "!r:other.org").2
      (by decide)⟩

theorem wakeUpLoop_failed (bots : List EngineBot) (m : List (Nat × Option String))
    (failed : List Nat) :
    (wakeUpLoop bots m failed).2 =
      failed ++ (bots.filter (fun b => b.wakeUp.isNone)).map (fun b => b.ID) := by
  induction bots generalizing m failed with
  | nil => simp [wakeUpLoop]
  | cons b rest ih =>
    rw [wakeUpLoop]
    cases hc : b.wakeUp with
    | none => simp [hc, ih, List.filter_cons]
    | some c => simp [hc, ih, List.filter_cons]

theorem wakeUpLoop_lookup_out (bots : List EngineBot) (m : List (Nat × Option String))
    (failed : List Nat) (k : Nat) (hk : k ∉ bots.map (fun b => b.ID)) :
    lookupA k (wakeUpLoop bots m failed).1 = lookupA k m := by
  induction bots generalizing m failed with
  | nil => rfl
  | cons b rest ih =>
    rw [wakeUpLoop]
    have hne : b.ID ≠ k := fun h => hk (by simp [h])
    rw [ih ((b.ID, b.wakeUp) :: m) _ (fun h => hk (List.mem_cons_of_mem _ h))]
    exact lookupA_cons_ne k b.ID b.wakeUp m hne

theorem wakeUpLoop_lookup_mem (bots : List EngineBot) (m : List (Nat × Option String))
    (failed : List Nat) (hnd : (bots.map (fun b => b.ID)).Nodup)
    (b : EngineBot) (hb : b ∈ bots) :
    lookupA b.ID (wakeUpLoop bots m failed).1 = some b.wakeUp := by
  induction bots generalizing m failed with
  | nil => cases hb
  | cons a rest ih =>
    rw [List.map_cons, List.nodup_cons] at hnd
    rcases List.mem_cons.mp hb with hba | hbr
    · subst hba
      rw [wakeUpLoop]
      rw [wakeUpLoop_lookup_out rest _ _ b.ID hnd.1]
      exact lookupA_cons_self b.ID b.wakeUp m
    · rw [wakeUpLoop]
      exact ih _ _ hnd.2 hbr

/-- C3: for every bot list with distinct ids, wakeUpMatrixBots
processes every bot without aborting on an individual failure,
returns success if and only if no wake-up failed, otherwise returns
an error listing exactly the ids of the failed bots, and the sessions
of the bots that succeeded are present in the bot map afterwards. -/
theorem c3_wake_up_all (bots : List EngineBot) (m0 : List (Nat × Option String))
    (hnd : (bots.map (fun b => b.ID)).Nodup) :
    ((wakeUpMatrixBots bots m0).2 = none ↔
      ∀ b ∈ bots, b.wakeUp.isSome = true) ∧
    (∀ ids, (wakeUpMatrixBots bots m0).2 = some ids →
      ids = (bots.filter (fun b => b.wakeUp.isNone)).map (fun b => b.ID)) ∧
    (∀ b ∈ bots, b.wakeUp.isSome = true →
      lookupA b.ID (wakeUpMatrixBots bots m0).1 = some b.wakeUp) := by
  have hfail : (wakeUpLoop bots m0 []).2 =
      (bots.filter (fun b => b.wakeUp.isNone)).map (fun b => b.ID) := by
    simpa using wakeUpLoop_failed bots m0 []
  refine ⟨?_, ?_, ?_⟩
  · unfold wakeUpMatrixBots
    simp only [hfail]
    constructor
    · intro h b hb
      by_cases hmt : ((bots.filter (fun b => b.wakeUp.isNone)).map (fun b => b.ID)).isEmpty
      · rw [List.isEmpty_iff] at hmt
        have hnn : ¬ b.wakeUp.isNone = true := by
          intro hnone
          have hmem : b.ID ∈ (bots.filter (fun b => b.wakeUp.isNone)).map (fun b => b.ID) :=
            List.mem_map_of_mem _ (List.mem_filter.mpr ⟨hb, hnone⟩)
          rw [hmt] at hmem
          cases hmem
        cases hw : b.wakeUp with
        | none => exact absurd (by rw [hw]; rfl) hnn
        | some c => rfl
      · simp [hmt] at h
    · intro h
      have : (bots.filter (fun b => b.wakeUp.isNone)) = [] := by
        apply List.filter_eq_nil_iff.mpr
        intro b hb
        simp [Option.isNone_iff_eq_none]
        intro hnone
        have := h b hb
        rw [hnone] at this
        cases this
      simp [this]
  · intro ids hids
    unfold wakeUpMatrixBots at hids
    simp only [hfail] at hids
    by_cases hmt : ((bots.filter (fun b => b.wakeUp.isNone)).map (fun b => b.ID)).isEmpty
    · simp [hmt] at hids
    · simp only [hmt, if_neg] at hids
      simp at hids
      exact hids.symm
  · intro b hb _
    exact wakeUpLoop_lookup_mem bots m0 [] hnd b hb

/-- C3 witness: over the bots A (id 1, succeeds) and B (id 2, fails),
wakeUpMatrixBots fails listing exactly id 2, reports success for no
other reason, and the session of A is present in the map. -/
theorem c3_witness :
    ((wakeUpMatrixBots [⟨1, some "cA"⟩, ⟨2, none⟩] []).2 = none ↔
      ∀ b ∈ [EngineBot.mk 1 (some "cA"), EngineBot.mk 2 none], b.wakeUp.isSome = true) ∧
    (∀ ids, (wakeUpMatrixBots [⟨1, some "cA"⟩, ⟨2, none⟩] []).2 = some ids →
      ids = ([EngineBot.mk 1 (some "cA"), EngineBot.mk 2 none].filter
          (fun b => b.wakeUp.isNone)).map (fun b => b.ID)) ∧
    (∀ b ∈ [EngineBot.mk 1 (some "cA"), EngineBot.mk 2 none], b.wakeUp.isSome = true →
      lookupA b.ID (wakeUpMatrixBots [⟨1, some "cA"⟩, ⟨2, none⟩] []).1 = some b.wakeUp) :=
  c3_wake_up_all [⟨1, some "cA"⟩, ⟨2, none⟩] [] (by decide)

/-- C10: after the wake-up loop returns, the bot map holds an entry
for every processed bot, a failed bot included: a failed bot id is
mapped to the stored none (the nil client its failed WakeUp returned)
rather than being absent from the map. -/
theorem c10_failed_bots_in_map (bots : List EngineBot) (m0 : List (Nat × Option String))
    (hnd : (bots.map (fun b => b.ID)).Nodup) :
    ∀ b ∈ bots,
      lookupA b.ID (wakeUpMatrixBots bots m0).1 = some b.wakeUp ∧
      (b.wakeUp = none → lookupA b.ID (wakeUpMatrixBots bots m0).1 = some none) := by
  intro b hb
  have h := wakeUpLoop_lookup_mem bots m0 [] hnd b hb
  exact ⟨h, fun hn => by rw [← hn]; exact h⟩

/-- C10 witness: the failed bot of id 2 has a map entry bound to the
nil client. -/
theorem c10_witness :
    lookupA 2 (wakeUpMatrixBots [⟨1, some "cA"⟩, ⟨2, none⟩] []).1 = some none :=
  ((c10_failed_bots_in_map [⟨1, some "cA"⟩, ⟨2, none⟩] [] (by decide)
    ⟨2, none⟩ (by decide)).2) rfl

/-- C7: for every inbound GET webhook request, a registered suffix
with a message=hello query invokes the bound workflow with payload
message hello and empty room; an unregistered suffix yields 404 with
no invocation; an absent message parameter yields 400 and an empty
message value yields 400, with no invocation; a room parameter that
is present with a single empty value yields a 400. -/
theorem c7_get_dispatch (webhooks : List (String × webhookt)) (r : Request)
    (suffix : String) (hpath : pathToSuffix r.path = some suffix)
    (hget : r.method = "GET") :
    (∀ t, lookupA suffix webhooks = some t →
      lookupA "message" r.query = some ["hello"] →
      lookupA "room" r.query = none →
      handleWebhook webhooks r = HandlerResult.processed suffix ⟨"hello", ""⟩) ∧
    (lookupA suffix webhooks = none →
      handleWebhook webhooks r = HandlerResult.response 404 "404 not found.") ∧
    (∀ t, lookupA suffix webhooks = some t →
      lookupA "message" r.query = none →
      handleWebhook webhooks r =
        HandlerResult.response 400 "400 bad request (No message parameter provided)") ∧
    (∀ t, lookupA suffix webhooks = some t →
      lookupA "message" r.query = some [""] →
      lookupA "room" r.query = none →
      handleWebhook webhooks r =
        HandlerResult.response 400 "400 bad request (No message to post)") ∧
    (∀ t, lookupA suffix webhooks = some t →
      lookupA "room" r.query = some [""] →
      ∃ m, handleWebhook webhooks r = HandlerResult.response 400 m) := by
  refine ⟨?_, ?_, ?_, ?_, ?_⟩
  · intro t ht hm hr
    simp [handleWebhook, hpath, ht, extractPayload, hget, hm, hr]
  · intro ht
    simp [handleWebhook, hpath, ht]
  · intro t ht hm
    simp [handleWebhook, hpath, ht, extractPayload, hget, hm]
  · intro t ht hm hr
    simp [handleWebhook, hpath, ht, extractPayload, hget, hm, hr]
  · intro t ht hr
    cases hm : lookupA "message" r.query with
    | none =>
      exact ⟨"400 bad request (No message parameter provided)",
        by simp [handleWebhook, hpath, ht, extractPayload, hget, hm]⟩
    | some msgs =>
      by_cases hlen : msgs.length < 1
      · exact ⟨"400 bad request (No message parameter provided)",
          by simp [handleWebhook, hpath, ht, extractPayload, hget, hm, hlen]⟩
      · exact ⟨"400 bad request (No room value specified)",
          by simp [handleWebhook, hpath, ht, extractPayload, hget, hm, hlen, hr]⟩

/-- C7 witness: the concrete registered suffix foo and unregistered
suffix bar, with the concrete GET requests of the claim. -/
theorem c7_witness :
    handleWebhook [("foo", ⟨"t", "foo", 1, true⟩)]
        ⟨"GET", "/webhooks-listener/foo", [("message", ["hello"])], [], none, none⟩ =
      HandlerResult.processed "foo" ⟨"hello", ""⟩ ∧
    handleWebhook [("foo", ⟨"t", "foo", 1, true⟩)]
        ⟨"GET", "/webhooks-listener/bar", [("message", ["hello"])], [], none, none⟩ =
      HandlerResult.response 404 "404 not found." ∧
    handleWebhook [("foo", ⟨"t", "foo", 1, true⟩)]
        ⟨"GET", "/webhooks-listener/foo", [], [], none, none⟩ =
      HandlerResult.response 400 "400 bad request (No message parameter provided)" :=
  ⟨(c7_get_dispatch [("foo", ⟨"t", "foo", 1, true⟩)]
      ⟨"GET", "/webhooks-listener/foo", [("message", ["hello"])], [], none, none⟩
      "foo" (by decide) rfl).1 ⟨"t", "foo", 1, true⟩ (by decide) (by decide) (by decide),
    (c7_get_dispatch [("foo", ⟨"t", "foo", 1, true⟩)]
      ⟨"GET", "/webhooks-listener/bar", [("message", ["hello"])], [], none, none⟩
      "bar" (by decide) rfl).2.1 (by decide),
    (c7_get_dispatch [("foo", ⟨"t", "foo", 1, true⟩)]
      ⟨"GET", "/webhooks-listener/foo", [], [], none, none⟩
      "foo" (by decide) rfl).2.2.1 ⟨"t", "foo", 1, true⟩ (by decide) (by decide)⟩

/-- C8: for every POST request to a registered suffix, the JSON body
with message hi and room !abc:server and the equivalent
form-urlencoded body produce the identical payload passed to the
bound workflow; and a body whose resulting message is missing or
empty yields a 400 with no workflow invocation, on both content
types. -/
theorem c8_post_content_negotiation (webhooks : List (String × webhookt))
    (suffix : String) (t : webhookt) (ht : lookupA suffix webhooks = some t)
    (rj rf : Request)
    (hpj : pathToSuffix rj.path = some suffix) (hmj : rj.method = "POST")
    (hctj : rj.contentTypes = ["application/json"])
    (hbj : rj.bodyJson = some ⟨some "hi", some "!abc:server"⟩)
    (hpf : pathToSuffix rf.path = some suffix) (hmf : rf.method = "POST")
    (hctf : rf.contentTypes = ["application/x-www-form-urlencoded"])
    (hbf : rf.bodyForm = some [("message", ["hi"]), ("room", ["!abc:server"])]) :
    handleWebhook webhooks rj = HandlerResult.processed suffix ⟨"hi", "!abc:server"⟩ ∧
    handleWebhook webhooks rf = handleWebhook webhooks rj ∧
    (∀ r jp, pathToSuffix r.path = some suffix → r.method = "POST" →
      r.contentTypes = ["application/json"] → r.bodyJson = some jp →
      (jp.message = none ∨ jp.message = some "") →
      handleWebhook webhooks r =
        HandlerResult.response 400 "400 bad request (No message to post)") ∧
    (∀ r form, pathToSuffix r.path = some suffix → r.method = "POST" →
      r.contentTypes = ["application/x-www-form-urlencoded"] →
      r.bodyForm = some form → formGet form "message" = "" →
      handleWebhook webhooks r =
        HandlerResult.response 400 "400 bad request (No message to post)") := by
  have hj : handleWebhook webhooks rj = HandlerResult.processed suffix ⟨"hi", "!abc:server"⟩ := by
    simp [handleWebhook, hpj, ht, extractPayload, hmj, hctj, hbj]
  refine ⟨hj, ?_, ?_, ?_⟩
  · rw [hj]
    simp [handleWebhook, hpf, ht, extractPayload, hmf, hctf, hbf, formGet, lookupA]
  · intro r jp hp hm hct hb hmsg
    rcases hmsg with hmsg | hmsg <;>
      simp [handleWebhook, hp, ht, extractPayload, hm, hct, hb, hmsg]
  · intro r form hp hm hct hb hmsg
    simp [handleWebhook, hp, ht, extractPayload, hm, hct, hb, hmsg]

/-- C8 witness: the concrete JSON and form requests of the claim on
the registered suffix foo, plus a JSON body with an empty message. -/
theorem c8_witness :
    handleWebhook [("foo", ⟨"t", "foo", 1, true⟩)]
        ⟨"POST", "/webhooks-listener/foo", [], ["application/json"],
          some ⟨some "hi", some "!abc:server"⟩, none⟩ =
      HandlerResult.processed "foo" ⟨"hi", "!abc:server"⟩ ∧
    handleWebhook [("foo", ⟨"t", "foo", 1, true⟩)]
        ⟨"POST", "/webhooks-listener/foo", [], ["application/x-www-form-urlencoded"],
          none, some [("message", ["hi"]), ("room", ["!abc:server"])]⟩ =
      handleWebhook [("foo", ⟨"t", "foo", 1, true⟩)]
        ⟨"POST", "/webhooks-listener/foo", [], ["application/json"],
          some ⟨some "hi", some "!abc:server"⟩, none⟩ ∧
    handleWebhook [("foo", ⟨"t", "foo", 1, true⟩)]
        ⟨"POST", "/webhooks-listener/foo", [], ["application/json"],
          some ⟨some "", some "r"⟩, none⟩ =
      HandlerResult.response 400 "400 bad request (No message to post)" := by
  have h := c8_post_content_negotiation [("foo", ⟨"t", "foo", 1, true⟩)] "foo"
    ⟨"t", "foo", 1, true⟩ (by decide)
    ⟨"POST", "/webhooks-listener/foo", [], ["application/json"],
      some ⟨some "hi", some "!abc:server"⟩, none⟩
    ⟨"POST", "/webhooks-listener/foo", [], ["application/x-www-form-urlencoded"],
      none, some [("message", ["hi"]), ("room", ["!abc:server"])]⟩
    (by decide) rfl rfl rfl (by decide) rfl rfl rfl
  exact ⟨h.1, h.2.1,
    h.2.2.1 ⟨"POST", "/webhooks-listener/foo", [], ["application/json"],
        some ⟨some "", some "r"⟩, none⟩ ⟨some "", some "r"⟩
      (by decide) rfl rfl rfl (Or.inr rfl)⟩

theorem lookupA_updateEntry_isSome {α : Type} (m : List (Nat × α)) (k j : Nat) (f : α → α) :
    (lookupA j (updateEntry m k f)).isSome = (lookupA j m).isSome := by
  induction m with
  | nil => rfl
  | cons kv rest ih =>
    by_cases hj : kv.1 = j
    · simp [updateEntry, lookupA, hj]
    · simp only [updateEntry, List.map_cons, lookupA, hj, if_false]
      exact ih

/-- C9: the step-loading phase of loadData completes without a
runtime panic exactly when every loaded step record names a workflow
id that is a key of the workflow map; a record with an unmatched
workflow_id makes loadData call addWorkflowStep on a nil workflow
pointer, crashing the load instead of reporting an error. -/
theorem loadWorkflowSteps_cons (m : List (Nat × workflow WFStepRecord))
    (ws : WFStepRecord) (rest : List WFStepRecord) :
    loadWorkflowSteps m (ws :: rest) =
      (match lookupA ws.workflow_id m with
        | none => none
        | some _ =>
          loadWorkflowSteps (updateEntry m ws.workflow_id (fun w => w.addWorkflowStep ws))
            rest) := by
  rcases ws with ⟨n, wid, k⟩
  cases k <;> rfl

theorem c9_load_steps_total_iff (m : List (Nat × workflow WFStepRecord))
    (steps : List WFStepRecord) :
    (loadWorkflowSteps m steps).isSome = true ↔
      ∀ s ∈ steps, (lookupA s.workflow_id m).isSome = true := by
  induction steps generalizing m with
  | nil => simp [loadWorkflowSteps]
  | cons ws rest ih =>
    rw [loadWorkflowSteps_cons]
    cases hl : lookupA ws.workflow_id m with
    | none =>
      constructor
      · intro h; simp at h
      · intro h
        have hw := h ws (List.mem_cons_self ws rest)
        rw [hl] at hw
        cases hw
    | some w =>
      rw [ih]
      constructor
      · intro h s hs
        rcases List.mem_cons.mp hs with h1 | h1
        · rw [h1, hl]; rfl
        · have h2 := h s h1
          rw [lookupA_updateEntry_isSome] at h2
          exact h2
      · intro h s hs
        rw [lookupA_updateEntry_isSome]
        exact h s (List.mem_cons_of_mem ws hs)

/-- C9 witness: over a workflow map holding only workflow 1, loading
a step bound to workflow 1 completes, and loading a step bound to the
absent workflow 2 hits the nil workflow pointer and crashes. -/
theorem c9_witness :
    (loadWorkflowSteps [(1, ⟨1, "w", "", ⟨"", ""⟩, []⟩)]
        [⟨"s", 1, WFStepKind.stdout⟩]).isSome = true ∧
    ¬ (loadWorkflowSteps [(1, ⟨1, "w", "", ⟨"", ""⟩, []⟩)]
        [⟨"s", 2, WFStepKind.stdout⟩]).isSome = true :=
  ⟨(c9_load_steps_total_iff [(1, ⟨1, "w", "", ⟨"", ""⟩, []⟩)]
      [⟨"s", 1, WFStepKind.stdout⟩]).mpr (by decide),
    fun h => absurd
      ((c9_load_steps_total_iff [(1, ⟨1, "w", "", ⟨"", ""⟩, []⟩)]
          [⟨"s", 2, WFStepKind.stdout⟩]).mp h
        ⟨"s", 2, WFStepKind.stdout⟩ (by decide))
      (by decide)⟩
